import Mathlib

/-!
Verification of the vovi device-discovery engine against its specification.

The development shallowly embeds the three source modules the claims touch:

* `mac_vendor.py` (`namespace MacVendor`): the rate-limited, persisted vendor
  resolution cache (`MacVendorLookup`).
* `realtime_discovery.py` (`namespace Realtime`): the passive discovery store
  (`detect_new_devices`, `extract_device_info`, `add_to_monitored_devices`).
* `discovery.py` (`namespace ActiveScan`): the per-host active probe
  (`check_mikrotik_device`).

Conventions.  Wall-clock timestamps are integers counting seconds (the Python
sources use `time.time()` / `datetime.now()`); where the Python code computes a
difference of timestamps we compute the same difference over `Int`.  Python
dictionaries that are only read and written pointwise are embedded as functions
`String → Option _`; Python lists as `List _`.  External effects (HTTP provider
responses, router sessions, the monitored-device store) appear as explicit
parameters so that every definition is executable on concrete inputs.  A Python
step that can raise is embedded with `Except String`; an `except` clause that
swallows the exception turns the `.error` case back into a value, exactly where
the source does.
-/

namespace MacVendor

/-- Character-level model of Python `str.upper()` (the MAC strings involved are
ASCII, for which `Char.toUpper` agrees with Python). -/
def pyUpper (s : String) : String := String.mk (s.data.map Char.toUpper)

/-- Model of Python `str.isalnum()` on the ASCII characters appearing in MAC
addresses. -/
def pyIsAlnum (c : Char) : Bool := c.isAlphanum

/-- Model of Python `str.strip()`: drop whitespace from both ends. -/
def pyStrip (s : String) : String :=
  String.mk (((s.data.dropWhile Char.isWhitespace).reverse.dropWhile Char.isWhitespace).reverse)

/-- CACHE_EXPIRY from mac_vendor.py: 30 days in seconds. -/
def CACHE_EXPIRY : Int := 30 * 24 * 60 * 60

/-- The in-memory cache of `MacVendorLookup` (a Python dict OUI ↦ (vendor,
timestamp)), embedded pointwise. -/
abbrev Cache := String → Option (String × Int)

/-- Pointwise update of a cache, modelling `self.cache[key] = value`. -/
def Cache.update (c : Cache) (k : String) (v : String × Int) : Cache :=
  fun k2 => if k2 = k then some v else c k2

/-- State of the `MacVendorLookup` singleton: the in-memory cache, the contents
of the persisted cache file (`mac_vendors_cache.json`), and the
`last_request_time` timestamp used by the rate limiter. -/
structure MacVendorState where
  cache : Cache
  file : Cache
  last_request_time : Int

/-- MacVendorLookup._normalize_mac: uppercase, keep only alphanumeric
characters, fail (return `""`) when fewer than 6 remain, otherwise return the
first 6 characters (the OUI). -/
def normalize_mac (mac : String) : String :=
  let m := (pyUpper mac).data.filter pyIsAlnum
  if m.length < 6 then "" else String.mk (m.take 6)

/-- Response of the first provider (`api.macvendors.com`, bare text body).
`exn` models a raised request exception. -/
inductive P1Resp where
  | exn
  | resp (status : Nat) (text : String)
deriving DecidableEq

/-- Parsed view of a `api.maclookup.app` response body.  `notJson` models a
body on which `response.json()` raises.  In `json success dataField`,
`success` is the truthiness of the `success` field and `dataField` is `none`
when the `data` field is missing or falsy, and `some v` when `data` is a
truthy object whose `vendor` field is `v` (`none` when the key is absent, in
which case the code falls back to `"Unknown"`). -/
inductive P2Body where
  | notJson
  | json (success : Bool) (dataField : Option (Option String))
deriving DecidableEq

/-- Response of the second provider (`api.maclookup.app`). -/
inductive P2Resp where
  | exn
  | resp (status : Nat) (body : P2Body)
deriving DecidableEq

/-- First iteration of the provider loop in `_lookup_online`: on HTTP 200 the
bare text body, stripped, is returned; any other status or a raised exception
falls through to the next provider. -/
def tryProvider1 : P1Resp → Option String
  | .resp 200 t => some (pyStrip t)
  | _ => none

/-- Second iteration of the provider loop in `_lookup_online`: on HTTP 200
with a JSON body whose `success` field is truthy and whose `data` field is
truthy, return `data.get("vendor", "Unknown")`; anything else (non-200,
unparsable body, falsy `success` or `data`, raised exception) declines. -/
def tryProvider2 : P2Resp → Option String
  | .resp 200 (.json true (some v)) => some (v.getD "Unknown")
  | _ => none

/-- MacVendorLookup._lookup_online: query the providers in the fixed order of
`API_URLS`; the first one that yields a vendor wins; if both fail or decline,
return the sentinel `"Unknown"`. -/
def lookup_online (p1 : P1Resp) (p2 : P2Resp) : String :=
  match tryProvider1 p1 with
  | some v => v
  | none =>
    match tryProvider2 p2 with
    | some v => v
    | none => "Unknown"

/-- Result of one `lookup` call: the returned value, the successor state, and
whether an online provider query was made (`_lookup_online` was entered). -/
structure LookupResult where
  vendor : Option String
  state : MacVendorState
  onlineCalled : Bool

/-- Online branch of `lookup` (lines 83-95 of mac_vendor.py): the rate-limit
sleep only delays the wall clock, so it leaves this state model unchanged;
`time_after` is the `time.time()` reading taken after the online query, stored
into `last_request_time`.  A truthy (non-empty) vendor is written into the
cache keyed by the OUI with the `current_time` captured at entry, and the
whole cache is persisted to the file (`_save_cache`). -/
def lookupOnlinePath (st : MacVendorState) (oui : String) (current_time time_after : Int)
    (p1 : P1Resp) (p2 : P2Resp) : LookupResult :=
  let vendor := lookup_online p1 p2
  let st1 : MacVendorState := { st with last_request_time := time_after }
  if vendor ≠ "" then
    let cache2 := st1.cache.update oui (vendor, current_time)
    ⟨some vendor, { st1 with cache := cache2, file := cache2 }, true⟩
  else
    ⟨some vendor, st1, true⟩

/-- MacVendorLookup.lookup: `none` for an empty MAC or one that fails
normalization; otherwise serve a cache entry younger than `CACHE_EXPIRY`
without going online; on a miss or an expired entry, go online via
`lookupOnlinePath`. -/
def lookup (st : MacVendorState) (mac : String) (current_time time_after : Int)
    (p1 : P1Resp) (p2 : P2Resp) : LookupResult :=
  if mac = "" then ⟨none, st, false⟩
  else
    let normalized_mac := normalize_mac mac
    if normalized_mac = "" then ⟨none, st, false⟩
    else
      match st.cache normalized_mac with
      | some (vendor, timestamp) =>
        if current_time - timestamp < CACHE_EXPIRY then ⟨some vendor, st, false⟩
        else lookupOnlinePath st normalized_mac current_time time_after p1 p2
      | none => lookupOnlinePath st normalized_mac current_time time_after p1 p2

/-- A cache entry for `oui` exists and is fresh at time `t` (the condition
under which `lookup` returns without going online). -/
def cacheFresh (st : MacVendorState) (oui : String) (t : Int) : Prop :=
  ∃ v ts, st.cache oui = some (v, ts) ∧ t - ts < CACHE_EXPIRY

/-- An empty cache, for concrete test states. -/
def emptyCache : Cache := fun _ => none

/-- Concrete test state with an empty cache and file. -/
def emptyState : MacVendorState := { cache := emptyCache, file := emptyCache, last_request_time := 0 }

/-- Concrete test state holding one cache entry for OUI `AABBCC` stamped at
time 0. -/
def acmeState : MacVendorState :=
  { cache := fun k => if k = "AABBCC" then some ("Acme Ltd", 0) else none
    file := emptyCache
    last_request_time := 0 }

end MacVendor

namespace Realtime

open MacVendor (pyUpper)

/-- NEW_DEVICE_THRESHOLD from realtime_discovery.py: 300 seconds. -/
def NEW_DEVICE_THRESHOLD : Int := 300

/-- One ARP table entry as consumed by `detect_new_devices` (the fields of
`models.ArpEntry` that the discovery code reads).  An empty string models a
missing/None `vendor` or `device_type`. -/
structure ArpEntry where
  mac_address : String
  address : String
  device_id : String
  vendor : String
  device_type : String
deriving DecidableEq

/-- One DHCP lease as consumed by `detect_new_devices` (the fields of
`models.DHCPLease` that the discovery code reads). -/
structure DHCPLease where
  mac_address : String
  address : String
  device_id : String
  vendor : String
  device_type : String
  hostname : String
deriving DecidableEq

/-- One record of the module-level `discovered_devices` dict. -/
structure DiscoveredDevice where
  mac_address : String
  ip_address : String
  hostname : String
  vendor : String
  device_type : String
  first_seen : Int
  last_seen : Int
  source : String
  source_device_id : String
  is_new : Bool
deriving DecidableEq

/-- The `mac_vendor_lookup` collaborator as seen from `extract_device_info`:
`lookup` returns the vendor (or `none` for Python `None`) and
`get_device_type` classifies a vendor string.  Both are pure here; the
discovery claims do not depend on the cache state threaded through them. -/
structure VendorOracle where
  lookup : String → Option String
  get_device_type : String → String

/-- The argument of `extract_device_info`: an ARP entry or a DHCP lease
together with its `source_type` tag. -/
inductive FeedEntry where
  | arp (e : ArpEntry)
  | dhcp (e : DHCPLease)

/-- The entry's MAC string as read by `extract_device_info`. -/
def FeedEntry.mac_address : FeedEntry → String
  | .arp e => e.mac_address
  | .dhcp e => e.mac_address

/-- The entry's IP as read by `extract_device_info` (`entry.address`). -/
def FeedEntry.address : FeedEntry → String
  | .arp e => e.address
  | .dhcp e => e.address

/-- The entry's vendor field (`""` models None). -/
def FeedEntry.vendor : FeedEntry → String
  | .arp e => e.vendor
  | .dhcp e => e.vendor

/-- The entry's device_type field (`""` models None). -/
def FeedEntry.device_type : FeedEntry → String
  | .arp e => e.device_type
  | .dhcp e => e.device_type

/-- The source tag passed by the callers in `detect_new_devices`. -/
def FeedEntry.source_type : FeedEntry → String
  | .arp _ => "arp"
  | .dhcp _ => "dhcp"

/-- extract_device_info: build a fresh `DiscoveredDevice` from a feed record.
The hostname is taken only from a DHCP lease (the `source_type == "dhcp" and
hasattr(entry, "hostname")` guard); a falsy vendor or device_type becomes
`"Unknown"`; when the vendor is unknown and the MAC is non-empty the vendor
oracle is consulted (`lookup(mac) or "Unknown"`), and on a real vendor the
device type is reclassified.  `first_seen = last_seen = now` and
`is_new = True`. -/
def extract_device_info (ven : VendorOracle) (entry : FeedEntry)
    (source_device_id : String) (now : Int) : DiscoveredDevice :=
  let mac_address := pyUpper entry.mac_address
  let hostname :=
    match entry with
    | .dhcp e => e.hostname
    | .arp _ => ""
  let vendor0 := if entry.vendor = "" then "Unknown" else entry.vendor
  let device_type0 := if entry.device_type = "" then "Unknown" else entry.device_type
  let vd :=
    if vendor0 = "Unknown" ∧ mac_address ≠ "" then
      let v0 := (ven.lookup mac_address).getD ""
      let v := if v0 = "" then "Unknown" else v0
      if v ≠ "Unknown" then (v, ven.get_device_type v) else (v, device_type0)
    else (vendor0, device_type0)
  { mac_address := mac_address
    ip_address := entry.address
    hostname := hostname
    vendor := vd.1
    device_type := vd.2
    first_seen := now
    last_seen := now
    source := entry.source_type
    source_device_id := source_device_id
    is_new := true }

/-- The module-level `discovered_devices` dict, embedded pointwise: normalized
MAC ↦ record. -/
abbrev Inventory := String → Option DiscoveredDevice

/-- Pointwise update, modelling `discovered_devices[mac] = device_info`. -/
def Inventory.update (inv : Inventory) (k : String) (d : DiscoveredDevice) : Inventory :=
  fun k2 => if k2 = k then some d else inv k2

/-- The loop state of one `detect_new_devices` pass: the inventory, the
`current_macs` set (as a list, membership only) and the `new_devices`
accumulator. -/
structure DetectState where
  inv : Inventory
  current_macs : List String
  new_devices : List DiscoveredDevice

/-- Body of the ARP loop of `detect_new_devices` (lines 107-130): skip empty
MACs; uppercase; record the MAC as seen; create a record for a new MAC, else
update `last_seen`, `ip_address` and recompute `is_new` from the unchanged
`first_seen`. -/
def stepArp (ven : VendorOracle) (now : Int) (s : DetectState) (e : ArpEntry) : DetectState :=
  if e.mac_address = "" then s
  else
    let mac := pyUpper e.mac_address
    let macs := mac :: s.current_macs
    match s.inv mac with
    | none =>
      let device_info := extract_device_info ven (.arp e) e.device_id now
      { inv := s.inv.update mac device_info
        current_macs := macs
        new_devices := s.new_devices ++ [device_info] }
    | some d =>
      let d2 := { d with
        last_seen := now
        ip_address := e.address
        is_new := decide (now - d.first_seen < NEW_DEVICE_THRESHOLD) }
      { inv := s.inv.update mac d2, current_macs := macs, new_devices := s.new_devices }

/-- Body of the DHCP loop of `detect_new_devices` (lines 133-160): like
`stepArp`, but additionally sets the hostname from the lease when the lease
carries a non-empty hostname and the stored hostname is empty. -/
def stepDhcp (ven : VendorOracle) (now : Int) (s : DetectState) (l : DHCPLease) : DetectState :=
  if l.mac_address = "" then s
  else
    let mac := pyUpper l.mac_address
    let macs := mac :: s.current_macs
    match s.inv mac with
    | none =>
      let device_info := extract_device_info ven (.dhcp l) l.device_id now
      { inv := s.inv.update mac device_info
        current_macs := macs
        new_devices := s.new_devices ++ [device_info] }
    | some d =>
      let d1 := { d with last_seen := now, ip_address := l.address }
      let d2 := if l.hostname ≠ "" ∧ d1.hostname = "" then { d1 with hostname := l.hostname } else d1
      let d3 := { d2 with is_new := decide (now - d2.first_seen < NEW_DEVICE_THRESHOLD) }
      { inv := s.inv.update mac d3, current_macs := macs, new_devices := s.new_devices }

/-- Both feed loops of one `detect_new_devices` pass: all ARP entries, then
all DHCP leases, starting from an empty `current_macs` set and an empty
`new_devices` list. -/
def processFeeds (ven : VendorOracle) (now : Int) (arps : List ArpEntry)
    (leases : List DHCPLease) (inv : Inventory) : DetectState :=
  (arps.foldl (stepArp ven now) ⟨inv, [], []⟩ |> leases.foldl (stepDhcp ven now))

/-- Final loop of `detect_new_devices` (lines 162-167): delete every record
whose `last_seen` is older than one day (86400 s before `now`) and whose MAC
was not observed in this pass. -/
def evictInactive (now : Int) (current_macs : List String) (inv : Inventory) : Inventory :=
  fun mac =>
    match inv mac with
    | some device =>
      if device.last_seen < now - 86400 ∧ mac ∉ current_macs then none else some device
    | none => none

/-- detect_new_devices: one full pass at time `now` over the given feeds,
returning the new inventory and the list of records created in this pass. -/
def detect_new_devices (ven : VendorOracle) (now : Int) (arps : List ArpEntry)
    (leases : List DHCPLease) (inv : Inventory) :
    Inventory × List DiscoveredDevice :=
  let s2 := processFeeds ven now arps leases inv
  (evictInactive now s2.current_macs s2.inv, s2.new_devices)

/-- A monitored-device record of the external `config` store, with the fields
`add_to_monitored_devices` reads and writes.  `mac_address` is `none` when
the dict has no `"mac_address"` key; `id` is `none` until the store assigns
one.  The free-text comment records the originating source and the first-seen
timestamp (printed here as a plain integer in place of `strftime`). -/
structure MonDevice where
  id : Option Nat
  name : String
  host : String
  mac_address : Option String
  site_id : String
  port : Nat
  username : String
  password : String
  enabled : Bool
  use_ssl : Bool
  vendor : String
  device_type : String
  comment : String
deriving DecidableEq

/-- Modelled from the spec: the external monitored-device store behind
`config.get_devices` / `config.add_device` (the `config` module is not among
the sources).  Per the spec it supports `list() → [MonitoredDevice]` and
`create(record) → id`; `create` assigns a fresh identifier and appends the
record. -/
structure ConfigStore where
  devices : List MonDevice
  next_id : Nat
deriving DecidableEq

/-- Modelled from the spec: `config.add_device` appends the record with a
freshly assigned identifier. -/
def ConfigStore.add_device (st : ConfigStore) (d : MonDevice) : ConfigStore :=
  { devices := st.devices ++ [{ d with id := some st.next_id }], next_id := st.next_id + 1 }

/-- The duplicate check of `add_to_monitored_devices` (lines 190-192): the
first stored device that has a `mac_address` key matching the argument
case-insensitively; `some id` when found (`id` being that device's stored
identifier), `none` otherwise. -/
def find_existing_id : List MonDevice → String → Option (Option Nat)
  | [], _ => none
  | d :: rest, mac =>
    match d.mac_address with
    | some m => if pyUpper m = pyUpper mac then some d.id else find_existing_id rest mac
    | none => find_existing_id rest mac

/-- The post-add identifier search of `add_to_monitored_devices` (lines
226-228): the first stored device whose `mac_address` equals the argument
verbatim (`device.get("mac_address") == mac_address`). -/
def find_by_mac : List MonDevice → String → Option (Option Nat)
  | [], _ => none
  | d :: rest, mac =>
    if d.mac_address = some mac then some d.id else find_by_mac rest mac

/-- The monitored-device record synthesized by `add_to_monitored_devices`
(lines 194-220): name preference is lease hostname, else
`"<vendor> - <last 6 chars>"`, else a default; default port 8728, default
user `admin` with empty password, created disabled. -/
def new_monitored_record (device_info : DiscoveredDevice)
    (mac_address site_id : String) : MonDevice :=
  let hostname := device_info.hostname
  let vendor := device_info.vendor
  let device_name :=
    if hostname ≠ "" then hostname
    else if vendor ≠ "Unknown" then vendor ++ " - " ++ mac_address.takeRight 6
    else "Thiết bị " ++ mac_address.takeRight 6
  { id := none
    name := device_name
    host := device_info.ip_address
    mac_address := some mac_address
    site_id := site_id
    port := 8728
    username := "admin"
    password := ""
    enabled := false
    use_ssl := false
    vendor := vendor
    device_type := device_info.device_type
    comment := "Phát hiện tự động từ " ++ device_info.source ++ " vào " ++
      toString device_info.first_seen }

/-- add_to_monitored_devices (the promotion workflow): fail with `none` when
the MAC string is not a key of the discovered inventory (a verbatim dict
membership test); return the existing identifier when the store already holds
a case-insensitive MAC match; otherwise synthesize a disabled monitored-device
record, add it to the store, and return the identifier found by re-scanning
the store for an exact MAC match. -/
def add_to_monitored_devices (inv : Inventory) (store : ConfigStore)
    (mac_address site_id : String) : Option Nat × ConfigStore :=
  match inv mac_address with
  | none => (none, store)
  | some device_info =>
    match find_existing_id store.devices mac_address with
    | some existing_id => (existing_id, store)
    | none =>
      let new_device := new_monitored_record device_info mac_address site_id
      let store2 := store.add_device new_device
      (match find_by_mac store2.devices mac_address with
       | some found_id => found_id
       | none => none,
       store2)

/-- Relation used to prove the per-pass invariants: every record of `inv`
survives into `inv2` (the feed loops never delete) with its `first_seen`
unchanged and, when its hostname is non-empty, its hostname unchanged. -/
def keepsRecord (inv inv2 : Inventory) : Prop :=
  ∀ mac d, inv mac = some d →
    ∃ d2, inv2 mac = some d2 ∧ d2.first_seen = d.first_seen ∧
      (d.hostname ≠ "" → d2.hostname = d.hostname)

/-- A vendor oracle that resolves nothing, for concrete test passes. -/
def ven0 : VendorOracle := { lookup := fun _ => none, get_device_type := fun _ => "Khác" }

/-- An empty discovered-device inventory. -/
def emptyInv : Inventory := fun _ => none

/-- A concrete inventory record created at time 0, without hostname. -/
def dev0 : DiscoveredDevice :=
  { mac_address := "AA:BB:CC:00:11:22", ip_address := "10.0.0.5", hostname := ""
    vendor := "Unknown", device_type := "Unknown", first_seen := 0, last_seen := 0
    source := "arp", source_device_id := "r1", is_new := true }

/-- `dev0` after a lease observation supplied the hostname `printer`. -/
def dev0h : DiscoveredDevice := { dev0 with hostname := "printer" }

/-- Inventory holding exactly `dev0` under its normalized MAC. -/
def inv0 : Inventory := fun k => if k = "AA:BB:CC:00:11:22" then some dev0 else none

/-- Inventory holding exactly `dev0h` under its normalized MAC. -/
def inv0h : Inventory := fun k => if k = "AA:BB:CC:00:11:22" then some dev0h else none

/-- A concrete ARP entry whose MAC is spelled in lowercase. -/
def arp0 : ArpEntry :=
  { mac_address := "aa:bb:cc:00:11:22", address := "10.0.0.5", device_id := "r1"
    vendor := "", device_type := "" }

/-- `dev0` as updated by observing `arp0` at time 301. -/
def dev0upd : DiscoveredDevice :=
  { dev0 with last_seen := 301, ip_address := "10.0.0.5", is_new := false }

/-- `dev0h` as updated by observing `arp0` at time 301. -/
def dev0hupd : DiscoveredDevice :=
  { dev0h with last_seen := 301, ip_address := "10.0.0.5", is_new := false }

/-- An empty monitored-device store. -/
def store0 : ConfigStore := { devices := [], next_id := 0 }

end Realtime

namespace ActiveScan

/-- Outcome of one embedded Python step: a value, or a raised exception
carrying its message. -/
abbrev Py (α : Type) := Except String α

/-- The `/system/resource` facts read by `check_mikrotik_device`
(`resources.get('board-name', 'Unknown')`, `resources.get('version',
'Unknown')`); `none` models a missing key. -/
structure ResourceFacts where
  board_name : Option String
  version : Option String
deriving DecidableEq

/-- Abstract behaviour of one probed host as observed by
`check_mikrotik_device`: the return code of `sock.connect_ex` (0 means the
port accepted; `.error` models a raised socket error), the outcome of
establishing the authenticated API session (`conn.get_api()`), and the two
resource fetches (each of which may raise: network error, empty reply list
indexed with `[0]`, …). -/
structure HostBehavior where
  connect_ex : Py Int
  get_api : Py Unit
  system_resource_get : Py ResourceFacts
  identity_get : Py (Option String)

/-- One candidate device as built by `check_mikrotik_device`. -/
structure ScanDeviceInfo where
  id : String
  name : String
  host : String
  port : Nat
  username : String
  password : String
  board_name : String
  version : String
  enabled : Bool
  use_ssl : Bool
deriving DecidableEq

/-- Body of the `try` block of `check_mikrotik_device` (lines 82-121),
step by step: a non-zero `connect_ex` code (closed port) returns `None`
directly; every raised exception of a later step propagates out of the body.
`genId` stands for the generated `uuid.uuid4()`. -/
def check_body (ip username password : String) (port : Nat) (genId : String)
    (h : HostBehavior) : Py (Option ScanDeviceInfo) :=
  match h.connect_ex with
  | .error e => .error e
  | .ok result =>
    if result ≠ 0 then .ok none
    else
      match h.get_api with
      | .error e => .error e
      | .ok _ =>
        match h.system_resource_get with
        | .error e => .error e
        | .ok resources =>
          match h.identity_get with
          | .error e => .error e
          | .ok identity =>
            .ok (some
              { id := genId
                name := identity.getD "Unknown Mikrotik"
                host := ip
                port := port
                username := username
                password := password
                board_name := resources.board_name.getD "Unknown"
                version := resources.version.getD "Unknown"
                enabled := true
                use_ssl := false })

/-- check_mikrotik_device: the whole probe body sits in
`try: … except Exception: return None`, so every raised exception becomes the
value `none` and nothing propagates to the caller. -/
def check_mikrotik_device (ip username password : String) (port : Nat) (genId : String)
    (h : HostBehavior) : Py (Option ScanDeviceInfo) :=
  match check_body ip username password port genId h with
  | .error _ => .ok none
  | .ok v => .ok v

/-- A host whose control port refuses the connection (`connect_ex` returns the
non-zero error code 111). -/
def refusedHost : HostBehavior :=
  { connect_ex := .ok 111, get_api := .ok (), system_resource_get := .ok ⟨none, none⟩
    identity_get := .ok none }

end ActiveScan

namespace MacVendor

/-- A MAC whose normalization succeeds is non-empty. -/
theorem mac_ne_of_normalize_ne (mac : String) (hm : normalize_mac mac ≠ "") : mac ≠ "" := by
  intro h
  exact hm (by rw [h]; rfl)

/-- On a fresh cache hit, `lookup` returns the cached vendor, changes nothing
and does not go online. -/
theorem lookup_cache_hit (st : MacVendorState) (mac v : String) (ts t ta : Int)
    (p1 : P1Resp) (p2 : P2Resp)
    (hm : normalize_mac mac ≠ "")
    (hc : st.cache (normalize_mac mac) = some (v, ts))
    (hfresh : t - ts < CACHE_EXPIRY) :
    lookup st mac t ta p1 p2 = ⟨some v, st, false⟩ := by
  have hmac := mac_ne_of_normalize_ne mac hm
  simp only [lookup, if_neg hmac, if_neg hm, hc, if_pos hfresh]

/-- On a miss or an expired entry, `lookup` is the online path. -/
theorem lookup_goes_online (st : MacVendorState) (mac : String) (t ta : Int)
    (p1 : P1Resp) (p2 : P2Resp)
    (hm : normalize_mac mac ≠ "")
    (hmiss : ¬ cacheFresh st (normalize_mac mac) t) :
    lookup st mac t ta p1 p2 = lookupOnlinePath st (normalize_mac mac) t ta p1 p2 := by
  have hmac := mac_ne_of_normalize_ne mac hm
  simp only [lookup, if_neg hmac, if_neg hm]
  cases hc : st.cache (normalize_mac mac) with
  | none => rfl
  | some p =>
    obtain ⟨v, ts⟩ := p
    dsimp only
    rw [if_neg (fun hfresh => hmiss ⟨v, ts, hc, hfresh⟩)]

/-- The online path always reports that an external call was made. -/
theorem onlinePath_called (st : MacVendorState) (oui : String) (t ta : Int)
    (p1 : P1Resp) (p2 : P2Resp) :
    (lookupOnlinePath st oui t ta p1 p2).onlineCalled = true := by
  unfold lookupOnlinePath
  dsimp only
  split <;> rfl

/-- The online path with a truthy vendor caches it under the OUI, stamped with
the entry time, and persists the whole cache to the file. -/
theorem onlinePath_caches (st : MacVendorState) (oui : String) (t ta : Int)
    (p1 : P1Resp) (p2 : P2Resp)
    (hv : lookup_online p1 p2 ≠ "") :
    lookupOnlinePath st oui t ta p1 p2 =
      ⟨some (lookup_online p1 p2),
       ⟨st.cache.update oui (lookup_online p1 p2, t),
        st.cache.update oui (lookup_online p1 p2, t), ta⟩, true⟩ := by
  simp only [lookupOnlinePath, if_pos hv]

/-- C6: for every MAC whose OUI has a cache entry with age strictly below 30
days, `lookup` serves the cached vendor with no state change and no external
call; an entry aged 30 days or more instead triggers the online refresh. -/
theorem cache_ttl_hit_or_refresh (st : MacVendorState) (mac v : String) (ts t ta : Int)
    (p1 : P1Resp) (p2 : P2Resp)
    (hm : normalize_mac mac ≠ "")
    (hc : st.cache (normalize_mac mac) = some (v, ts)) :
    (t - ts < CACHE_EXPIRY → lookup st mac t ta p1 p2 = ⟨some v, st, false⟩) ∧
    (¬ t - ts < CACHE_EXPIRY → (lookup st mac t ta p1 p2).onlineCalled = true) := by
  constructor
  · intro hfresh
    exact lookup_cache_hit st mac v ts t ta p1 p2 hm hc hfresh
  · intro hstale
    have hmiss : ¬ cacheFresh st (normalize_mac mac) t := by
      rintro ⟨v2, ts2, hc2, hfresh2⟩
      rw [hc] at hc2
      injection hc2 with hp
      injection hp with hv2 hts2
      rw [hts2] at hstale
      exact hstale hfresh2
    rw [lookup_goes_online st mac t ta p1 p2 hm hmiss]
    exact onlinePath_called st (normalize_mac mac) t ta p1 p2

/-- C6 witness: a 10-second-old entry for `AABBCC` is served unchanged with no
online call; at exactly 30 days of age the online refresh runs instead. -/
theorem cache_ttl_hit_or_refresh_witness :
    lookup acmeState "AA:BB:CC:00:11:22" 10 11 P1Resp.exn P2Resp.exn =
      ⟨some "Acme Ltd", acmeState, false⟩ ∧
    (lookup acmeState "AA:BB:CC:00:11:22" 2592000 2592001 P1Resp.exn P2Resp.exn).onlineCalled
      = true := by
  constructor
  · exact (cache_ttl_hit_or_refresh acmeState "AA:BB:CC:00:11:22" "Acme Ltd" 0 10 11
      P1Resp.exn P2Resp.exn (by decide) (by decide)).1 (by decide)
  · exact (cache_ttl_hit_or_refresh acmeState "AA:BB:CC:00:11:22" "Acme Ltd" 0 2592000 2592001
      P1Resp.exn P2Resp.exn (by decide) (by decide)).2 (by decide)

/-- C7: on a cache miss the providers are tried in their fixed order and the
first HTTP 200 wins (last conjunct: a 200 from the first provider is returned
as its stripped text body no matter what the second provider would say).  When
the first provider fails and the second answers 200 with a success envelope
carrying vendor `Acme`, `lookup` returns `Acme`, the result is written to the
in-memory cache keyed by the OUI, and the cache is persisted to the file. -/
theorem provider_fallback_first_200_wins (st : MacVendorState) (mac : String) (t ta : Int)
    (p1 : P1Resp)
    (hm : normalize_mac mac ≠ "")
    (hmiss : ¬ cacheFresh st (normalize_mac mac) t)
    (h1 : tryProvider1 p1 = none) :
    (lookup st mac t ta p1 (P2Resp.resp 200 (P2Body.json true (some (some "Acme"))))).vendor
        = some "Acme" ∧
    (lookup st mac t ta p1 (P2Resp.resp 200 (P2Body.json true (some (some "Acme"))))).onlineCalled
        = true ∧
    (lookup st mac t ta p1 (P2Resp.resp 200 (P2Body.json true (some (some "Acme"))))).state.cache
        (normalize_mac mac) = some ("Acme", t) ∧
    (lookup st mac t ta p1 (P2Resp.resp 200 (P2Body.json true (some (some "Acme"))))).state.file
      = (lookup st mac t ta p1
          (P2Resp.resp 200 (P2Body.json true (some (some "Acme"))))).state.cache ∧
    (∀ (txt : String) (q2 : P2Resp), lookup_online (P1Resp.resp 200 txt) q2 = pyStrip txt) := by
  have hv : lookup_online p1 (P2Resp.resp 200 (P2Body.json true (some (some "Acme")))) = "Acme" := by
    unfold lookup_online
    rw [h1]
    rfl
  rw [lookup_goes_online st mac t ta p1 _ hm hmiss,
    onlinePath_caches st (normalize_mac mac) t ta p1 _ (by rw [hv]; exact by decide)]
  refine ⟨by rw [hv], rfl, ?_, rfl, ?_⟩
  · simp [Cache.update, hv]
  · intro txt q2
    rfl

/-- C7 witness: first provider answers HTTP 500, second answers the Acme
success envelope; `lookup` returns `Acme` and caches it under the OUI. -/
theorem provider_fallback_first_200_wins_witness :
    (lookup emptyState "aa:bb:cc:00:11:22" 7 8 (P1Resp.resp 500 "oops")
        (P2Resp.resp 200 (P2Body.json true (some (some "Acme"))))).vendor = some "Acme" ∧
    (lookup emptyState "aa:bb:cc:00:11:22" 7 8 (P1Resp.resp 500 "oops")
        (P2Resp.resp 200 (P2Body.json true (some (some "Acme"))))).state.cache
        (normalize_mac "aa:bb:cc:00:11:22") = some ("Acme", 7) := by
  have h := provider_fallback_first_200_wins emptyState "aa:bb:cc:00:11:22" 7 8
    (P1Resp.resp 500 "oops") (by decide)
    (by rintro ⟨v, ts, hcc, -⟩; exact Option.noConfusion hcc) rfl
  exact ⟨h.1, h.2.2.1⟩

/-- C1 counterexample: with an empty cache and both providers failing (first
raises, second answers HTTP 500), `lookup` returns the sentinel `Unknown` and,
contrary to the claim, does write an entry for the OUI into the in-memory
cache and into the persisted file. -/
theorem unknown_sentinel_cached_cex :
    (lookup emptyState "AA:BB:CC:00:11:22" 0 1 P1Resp.exn
        (P2Resp.resp 500 P2Body.notJson)).vendor = some "Unknown" ∧
    (lookup emptyState "AA:BB:CC:00:11:22" 0 1 P1Resp.exn
        (P2Resp.resp 500 P2Body.notJson)).state.cache "AABBCC" ≠ none ∧
    (lookup emptyState "AA:BB:CC:00:11:22" 0 1 P1Resp.exn
        (P2Resp.resp 500 P2Body.notJson)).state.file "AABBCC" ≠ none := by
  decide

/-- C1 (amended): when every provider fails or declines, `lookup` returns the
sentinel `Unknown` and does cache it — the entry `(Unknown, lookup time)` is
written for the OUI into the in-memory cache and the persisted file, so a
subsequent lookup of the same MAC within 30 days is served from the cache
without an online query. -/
theorem exhausted_lookup_caches_unknown (st : MacVendorState) (mac : String) (t ta : Int)
    (p1 : P1Resp) (p2 : P2Resp)
    (hm : normalize_mac mac ≠ "")
    (hmiss : ¬ cacheFresh st (normalize_mac mac) t)
    (h1 : tryProvider1 p1 = none) (h2 : tryProvider2 p2 = none) :
    (lookup st mac t ta p1 p2).vendor = some "Unknown" ∧
    (lookup st mac t ta p1 p2).state.cache (normalize_mac mac) = some ("Unknown", t) ∧
    (lookup st mac t ta p1 p2).state.file (normalize_mac mac) = some ("Unknown", t) := by
  have hv : lookup_online p1 p2 = "Unknown" := by
    unfold lookup_online
    rw [h1, h2]
  rw [lookup_goes_online st mac t ta p1 p2 hm hmiss,
    onlinePath_caches st (normalize_mac mac) t ta p1 p2 (by rw [hv]; exact by decide)]
  refine ⟨by rw [hv], ?_, ?_⟩ <;> simp [Cache.update, hv]

/-- C1 amended-claim witness: a 404 from the first provider and a declined
envelope from the second leave `lookup` with `Unknown`, now cached. -/
theorem exhausted_lookup_caches_unknown_witness :
    (lookup emptyState "aa:bb:cc:00:11:22" 5 6 (P1Resp.resp 404 "x")
        (P2Resp.resp 200 (P2Body.json false none))).vendor = some "Unknown" ∧
    (lookup emptyState "aa:bb:cc:00:11:22" 5 6 (P1Resp.resp 404 "x")
        (P2Resp.resp 200 (P2Body.json false none))).state.cache
        (normalize_mac "aa:bb:cc:00:11:22") = some ("Unknown", 5) := by
  have h := exhausted_lookup_caches_unknown emptyState "aa:bb:cc:00:11:22" 5 6
    (P1Resp.resp 404 "x") (P2Resp.resp 200 (P2Body.json false none)) (by decide)
    (by rintro ⟨v, ts, hcc, -⟩; exact Option.noConfusion hcc) rfl rfl
  exact ⟨h.1, h.2.1⟩

end MacVendor

namespace Realtime

open MacVendor (pyUpper)

/-- keepsRecord is reflexive. -/
theorem keepsRecord_refl (inv : Inventory) : keepsRecord inv inv :=
  fun _ d hd => ⟨d, hd, rfl, fun _ => rfl⟩

/-- keepsRecord composes. -/
theorem keepsRecord_trans {a b c : Inventory} (h1 : keepsRecord a b) (h2 : keepsRecord b c) :
    keepsRecord a c := by
  intro mac d hd
  obtain ⟨d2, hd2, hf2, hh2⟩ := h1 mac d hd
  obtain ⟨d3, hd3, hf3, hh3⟩ := h2 mac d2 hd2
  refine ⟨d3, hd3, hf3.trans hf2, fun hne => ?_⟩
  have e2 : d2.hostname = d.hostname := hh2 hne
  have e3 : d3.hostname = d2.hostname := hh3 (by rw [e2]; exact hne)
  rw [e3, e2]

/-- Pointwise description of the inventory after one ARP loop iteration. -/
theorem stepArp_inv_lookup (ven : VendorOracle) (now : Int) (s : DetectState) (e : ArpEntry)
    (mac : String) :
    (stepArp ven now s e).inv mac =
      if e.mac_address = "" then s.inv mac
      else if mac = pyUpper e.mac_address then
        match s.inv (pyUpper e.mac_address) with
        | none => some (extract_device_info ven (.arp e) e.device_id now)
        | some d => some { d with
            last_seen := now
            ip_address := e.address
            is_new := decide (now - d.first_seen < NEW_DEVICE_THRESHOLD) }
      else s.inv mac := by
  unfold stepArp
  by_cases h1 : e.mac_address = ""
  · rw [if_pos h1, if_pos h1]
  · rw [if_neg h1, if_neg h1]
    cases hc : s.inv (pyUpper e.mac_address) with
    | none => simp [Inventory.update, hc]
    | some d => simp [Inventory.update, hc]

/-- Pointwise description of the inventory after one DHCP loop iteration. -/
theorem stepDhcp_inv_lookup (ven : VendorOracle) (now : Int) (s : DetectState) (l : DHCPLease)
    (mac : String) :
    (stepDhcp ven now s l).inv mac =
      if l.mac_address = "" then s.inv mac
      else if mac = pyUpper l.mac_address then
        match s.inv (pyUpper l.mac_address) with
        | none => some (extract_device_info ven (.dhcp l) l.device_id now)
        | some d =>
          if l.hostname ≠ "" ∧ d.hostname = "" then
            some { d with
              last_seen := now
              ip_address := l.address
              hostname := l.hostname
              is_new := decide (now - d.first_seen < NEW_DEVICE_THRESHOLD) }
          else
            some { d with
              last_seen := now
              ip_address := l.address
              is_new := decide (now - d.first_seen < NEW_DEVICE_THRESHOLD) }
      else s.inv mac := by
  unfold stepDhcp
  by_cases h1 : l.mac_address = ""
  · rw [if_pos h1, if_pos h1]
  · rw [if_neg h1, if_neg h1]
    cases hc : s.inv (pyUpper l.mac_address) with
    | none => simp [Inventory.update, hc]
    | some d =>
      by_cases h2 : l.hostname ≠ "" ∧ d.hostname = ""
      · simp [Inventory.update, hc, h2]
      · simp [Inventory.update, hc, h2]

/-- One ARP iteration keeps every stored record, its `first_seen`, and any
non-empty hostname. -/
theorem stepArp_keeps (ven : VendorOracle) (now : Int) (s : DetectState) (e : ArpEntry) :
    keepsRecord s.inv (stepArp ven now s e).inv := by
  intro mac d hd
  rw [stepArp_inv_lookup]
  by_cases h1 : e.mac_address = ""
  · rw [if_pos h1]; exact ⟨d, hd, rfl, fun _ => rfl⟩
  · rw [if_neg h1]
    by_cases hk : mac = pyUpper e.mac_address
    · rw [if_pos hk, ← hk, hd]
      exact ⟨_, rfl, rfl, fun _ => rfl⟩
    · rw [if_neg hk]; exact ⟨d, hd, rfl, fun _ => rfl⟩

/-- One DHCP iteration keeps every stored record, its `first_seen`, and any
non-empty hostname. -/
theorem stepDhcp_keeps (ven : VendorOracle) (now : Int) (s : DetectState) (l : DHCPLease) :
    keepsRecord s.inv (stepDhcp ven now s l).inv := by
  intro mac d hd
  rw [stepDhcp_inv_lookup]
  by_cases h1 : l.mac_address = ""
  · rw [if_pos h1]; exact ⟨d, hd, rfl, fun _ => rfl⟩
  · rw [if_neg h1]
    by_cases hk : mac = pyUpper l.mac_address
    · rw [if_pos hk, ← hk, hd]
      dsimp only
      by_cases h2 : l.hostname ≠ "" ∧ d.hostname = ""
      · rw [if_pos h2]
        exact ⟨_, rfl, rfl, fun hne => absurd h2.2 hne⟩
      · rw [if_neg h2]
        exact ⟨_, rfl, rfl, fun _ => rfl⟩
    · rw [if_neg hk]; exact ⟨d, hd, rfl, fun _ => rfl⟩

/-- Folding record-keeping steps keeps records. -/
theorem foldl_keeps {β : Type} (step : DetectState → β → DetectState)
    (hstep : ∀ s b, keepsRecord s.inv (step s b).inv) :
    ∀ (l : List β) (s : DetectState), keepsRecord s.inv (l.foldl step s).inv := by
  intro l
  induction l with
  | nil => intro s; exact keepsRecord_refl s.inv
  | cons b tl ih =>
    intro s
    exact keepsRecord_trans (hstep s b) (ih (step s b))

/-- Both feed loops of a pass keep records, `first_seen`, and non-empty
hostnames. -/
theorem processFeeds_keeps (ven : VendorOracle) (now : Int) (arps : List ArpEntry)
    (leases : List DHCPLease) (inv : Inventory) :
    keepsRecord inv (processFeeds ven now arps leases inv).inv := by
  unfold processFeeds
  exact keepsRecord_trans
    (foldl_keeps (stepArp ven now) (stepArp_keeps ven now) arps ⟨inv, [], []⟩)
    (foldl_keeps (stepDhcp ven now) (stepDhcp_keeps ven now) leases _)

/-- The eviction filter only ever removes records; what it returns was
already stored. -/
theorem evictInactive_sub (now : Int) (macs : List String) (inv : Inventory) (mac : String)
    (d : DiscoveredDevice) (h : evictInactive now macs inv mac = some d) :
    inv mac = some d := by
  unfold evictInactive at h
  cases hc : inv mac with
  | none => rw [hc] at h; exact Option.noConfusion h
  | some dx =>
    rw [hc] at h
    dsimp only at h
    split at h
    · exact Option.noConfusion h
    · injection h with h2
      rw [h2]

/-- C2: across a full detection pass a surviving record keeps its `first_seen`
unchanged, and after any single observation (ARP or DHCP) of a non-empty MAC
at time `now` the stored record's `is_new` flag equals
`now - first_seen < 300`. -/
theorem first_seen_immutable_is_new_aging (ven : VendorOracle) (now : Int)
    (arps : List ArpEntry) (leases : List DHCPLease) (inv : Inventory) :
    (∀ mac d d2, inv mac = some d →
        (detect_new_devices ven now arps leases inv).1 mac = some d2 →
        d2.first_seen = d.first_seen) ∧
    (∀ (s : DetectState) (e : ArpEntry), e.mac_address ≠ "" →
        ∃ d2, (stepArp ven now s e).inv (pyUpper e.mac_address) = some d2 ∧
          d2.is_new = decide (now - d2.first_seen < NEW_DEVICE_THRESHOLD)) ∧
    (∀ (s : DetectState) (l : DHCPLease), l.mac_address ≠ "" →
        ∃ d2, (stepDhcp ven now s l).inv (pyUpper l.mac_address) = some d2 ∧
          d2.is_new = decide (now - d2.first_seen < NEW_DEVICE_THRESHOLD)) := by
  refine ⟨?_, ?_, ?_⟩
  · intro mac d d2 hd hd2
    simp only [detect_new_devices] at hd2
    have hpf := evictInactive_sub _ _ _ _ _ hd2
    obtain ⟨dm, hdm, hfs, -⟩ := processFeeds_keeps ven now arps leases inv mac d hd
    rw [hdm] at hpf
    injection hpf with h
    rw [← h]
    exact hfs
  · intro s e he
    rw [stepArp_inv_lookup, if_neg he, if_pos rfl]
    cases hc : s.inv (pyUpper e.mac_address) with
    | none =>
      refine ⟨_, rfl, ?_⟩
      simp [extract_device_info, NEW_DEVICE_THRESHOLD]
    | some d => exact ⟨_, rfl, rfl⟩
  · intro s l hl
    rw [stepDhcp_inv_lookup, if_neg hl, if_pos rfl]
    cases hc : s.inv (pyUpper l.mac_address) with
    | none =>
      refine ⟨_, rfl, ?_⟩
      simp [extract_device_info, NEW_DEVICE_THRESHOLD]
    | some d =>
      dsimp only
      by_cases h2 : l.hostname ≠ "" ∧ d.hostname = ""
      · rw [if_pos h2]; exact ⟨_, rfl, rfl⟩
      · rw [if_neg h2]; exact ⟨_, rfl, rfl⟩

/-- C2 witness: re-observing `dev0` via ARP 301 seconds after creation leaves
`first_seen` at 0 while `is_new` has aged to false. -/
theorem first_seen_immutable_is_new_aging_witness :
    dev0upd.first_seen = dev0.first_seen ∧
    (detect_new_devices ven0 301 [arp0] [] inv0).1 "AA:BB:CC:00:11:22" = some dev0upd ∧
    dev0upd.is_new = decide ((301 : Int) - dev0upd.first_seen < NEW_DEVICE_THRESHOLD) := by
  have h1 : (detect_new_devices ven0 301 [arp0] [] inv0).1 "AA:BB:CC:00:11:22" = some dev0upd := by
    decide
  refine ⟨?_, h1, by decide⟩
  exact (first_seen_immutable_is_new_aging ven0 301 [arp0] [] inv0).1
    "AA:BB:CC:00:11:22" dev0 dev0upd (by decide) h1

/-- C3: hostname is set only by a DHCP observation carrying a non-empty
hostname and only while the stored hostname is empty; an ARP observation
never sets or clears it (creation from ARP stores an empty hostname), and a
hostname learned from a lease survives a subsequent ARP-only pass. -/
theorem hostname_lease_only (ven : VendorOracle) (now : Int) :
    (∀ (s : DetectState) (e : ArpEntry) (mac : String) d d2, s.inv mac = some d →
        (stepArp ven now s e).inv mac = some d2 → d2.hostname = d.hostname) ∧
    (∀ (s : DetectState) (e : ArpEntry), e.mac_address ≠ "" →
        s.inv (pyUpper e.mac_address) = none →
        ∃ d2, (stepArp ven now s e).inv (pyUpper e.mac_address) = some d2 ∧
          d2.hostname = "") ∧
    (∀ (s : DetectState) (l : DHCPLease) d, l.mac_address ≠ "" →
        s.inv (pyUpper l.mac_address) = some d →
        ∃ d2, (stepDhcp ven now s l).inv (pyUpper l.mac_address) = some d2 ∧
          d2.hostname = if l.hostname ≠ "" ∧ d.hostname = "" then l.hostname else d.hostname) ∧
    (∀ (arps : List ArpEntry) (inv : Inventory) (mac : String) d d2, d.hostname ≠ "" →
        inv mac = some d →
        (detect_new_devices ven now arps [] inv).1 mac = some d2 →
        d2.hostname = d.hostname) := by
  refine ⟨?_, ?_, ?_, ?_⟩
  · intro s e mac d d2 hd hd2
    rw [stepArp_inv_lookup] at hd2
    by_cases h1 : e.mac_address = ""
    · rw [if_pos h1, hd] at hd2
      injection hd2 with h
      rw [← h]
    · rw [if_neg h1] at hd2
      by_cases hk : mac = pyUpper e.mac_address
      · rw [if_pos hk, ← hk, hd] at hd2
        injection hd2 with h
        rw [← h]
      · rw [if_neg hk, hd] at hd2
        injection hd2 with h
        rw [← h]
  · intro s e he hnone
    rw [stepArp_inv_lookup, if_neg he, if_pos rfl, hnone]
    exact ⟨_, rfl, rfl⟩
  · intro s l d hl hd
    rw [stepDhcp_inv_lookup, if_neg hl, if_pos rfl, hd]
    dsimp only
    by_cases h2 : l.hostname ≠ "" ∧ d.hostname = ""
    · rw [if_pos h2, if_pos h2]
      exact ⟨_, rfl, rfl⟩
    · rw [if_neg h2, if_neg h2]
      exact ⟨_, rfl, rfl⟩
  · intro arps inv mac d d2 hne hd hd2
    simp only [detect_new_devices] at hd2
    have hpf := evictInactive_sub _ _ _ _ _ hd2
    obtain ⟨dm, hdm, -, hh⟩ := processFeeds_keeps ven now arps [] inv mac d hd
    rw [hdm] at hpf
    injection hpf with h
    rw [← h]
    exact hh hne

/-- C3 witness: the hostname `printer`, learned earlier from a lease, survives
an ARP-only pass over the same MAC. -/
theorem hostname_lease_only_witness :
    (detect_new_devices ven0 301 [arp0] [] inv0h).1 "AA:BB:CC:00:11:22" = some dev0hupd ∧
    dev0hupd.hostname = dev0h.hostname := by
  have h1 : (detect_new_devices ven0 301 [arp0] [] inv0h).1 "AA:BB:CC:00:11:22"
      = some dev0hupd := by decide
  refine ⟨h1, ?_⟩
  exact (hostname_lease_only ven0 301).2.2.2 [arp0] inv0h "AA:BB:CC:00:11:22" dev0h dev0hupd
    (by decide) (by decide) h1

/-- C4: at the end of a pass an inventory entry is deleted exactly when its
`last_seen` is older than 24 hours and its MAC was not observed in the pass;
an absent MAC that is observed again — through either the ARP or the DHCP
feed — is recreated with `first_seen` reset to the observation time and
`is_new` true. -/
theorem eviction_iff_stale_and_unobserved (ven : VendorOracle) (now : Int)
    (arps : List ArpEntry) (leases : List DHCPLease) (inv : Inventory) :
    (∀ mac d, (processFeeds ven now arps leases inv).inv mac = some d →
        ((detect_new_devices ven now arps leases inv).1 mac = none ↔
          (d.last_seen < now - 86400 ∧
            mac ∉ (processFeeds ven now arps leases inv).current_macs))) ∧
    (∀ (s : DetectState) (e : ArpEntry), e.mac_address ≠ "" →
        s.inv (pyUpper e.mac_address) = none →
        ∃ d2, (stepArp ven now s e).inv (pyUpper e.mac_address) = some d2 ∧
          d2.first_seen = now ∧ d2.is_new = true) ∧
    (∀ (s : DetectState) (l : DHCPLease), l.mac_address ≠ "" →
        s.inv (pyUpper l.mac_address) = none →
        ∃ d2, (stepDhcp ven now s l).inv (pyUpper l.mac_address) = some d2 ∧
          d2.first_seen = now ∧ d2.is_new = true) := by
  refine ⟨?_, ?_, ?_⟩
  · intro mac d hd
    simp only [detect_new_devices, evictInactive, hd]
    by_cases hc : d.last_seen < now - 86400 ∧
        mac ∉ (processFeeds ven now arps leases inv).current_macs
    · simp [hc]
    · simp [hc]
  · intro s e he hnone
    rw [stepArp_inv_lookup, if_neg he, if_pos rfl, hnone]
    exact ⟨_, rfl, rfl, rfl⟩
  · intro s l hl hnone
    rw [stepDhcp_inv_lookup, if_neg hl, if_pos rfl, hnone]
    exact ⟨_, rfl, rfl, rfl⟩

/-- C4 witness: `dev0`, last seen at time 0 and unobserved in an empty pass at
time 90000 (25 hours later), is evicted. -/
theorem eviction_iff_stale_and_unobserved_witness :
    (detect_new_devices ven0 90000 [] [] inv0).1 "AA:BB:CC:00:11:22" = none :=
  ((eviction_iff_stale_and_unobserved ven0 90000 [] [] inv0).1
    "AA:BB:CC:00:11:22" dev0 (by decide)).mpr (by decide)

/-- Appending store records does not affect a duplicate search that already
failed on the prefix. -/
theorem find_existing_id_append_none (l1 l2 : List MonDevice) (mac : String)
    (h : find_existing_id l1 mac = none) :
    find_existing_id (l1 ++ l2) mac = find_existing_id l2 mac := by
  induction l1 with
  | nil => rfl
  | cons d tl ih =>
    simp only [find_existing_id, List.cons_append] at h ⊢
    cases hdm : d.mac_address with
    | none =>
      rw [hdm] at h
      dsimp only at h ⊢
      exact ih h
    | some m =>
      rw [hdm] at h
      dsimp only at h ⊢
      by_cases hq : MacVendor.pyUpper m = MacVendor.pyUpper mac
      · rw [if_pos hq] at h
        exact Option.noConfusion h
      · rw [if_neg hq] at h ⊢
        exact ih h

/-- Appending store records does not affect an exact-MAC search that already
failed on the prefix. -/
theorem find_by_mac_append_none (l1 l2 : List MonDevice) (mac : String)
    (h : find_by_mac l1 mac = none) :
    find_by_mac (l1 ++ l2) mac = find_by_mac l2 mac := by
  induction l1 with
  | nil => rfl
  | cons d tl ih =>
    simp only [find_by_mac, List.cons_append] at h ⊢
    by_cases hq : d.mac_address = some mac
    · rw [if_pos hq] at h
      exact Option.noConfusion h
    · rw [if_neg hq] at h ⊢
      exact ih h

/-- An exact-MAC match is in particular a case-insensitive match, so a failed
case-insensitive search implies a failed exact search. -/
theorem find_by_mac_of_existing_none (l : List MonDevice) (mac : String)
    (h : find_existing_id l mac = none) : find_by_mac l mac = none := by
  induction l with
  | nil => rfl
  | cons d tl ih =>
    simp only [find_existing_id] at h
    simp only [find_by_mac]
    cases hdm : d.mac_address with
    | none =>
      rw [hdm] at h
      dsimp only at h
      rw [if_neg (fun hx => Option.noConfusion hx)]
      exact ih h
    | some m =>
      rw [hdm] at h
      dsimp only at h
      by_cases hq : MacVendor.pyUpper m = MacVendor.pyUpper mac
      · rw [if_pos hq] at h
        exact Option.noConfusion h
      · rw [if_neg hq] at h
        by_cases hx : m = mac
        · exact absurd (by rw [hx]) hq
        · rw [if_neg (fun hsx => hx (Option.some.inj hsx))]
          exact ih h

/-- Exact-MAC search over a one-record store whose record carries the MAC. -/
theorem find_by_mac_singleton (nd : MonDevice) (mac : String)
    (h : nd.mac_address = some mac) : find_by_mac [nd] mac = some nd.id := by
  simp only [find_by_mac]
  rw [if_pos h]

/-- Case-insensitive search over a one-record store whose record carries a
MAC with the same uppercase form. -/
theorem find_existing_id_singleton (nd : MonDevice) (mac m : String)
    (h : nd.mac_address = some m) (hq : MacVendor.pyUpper m = MacVendor.pyUpper mac) :
    find_existing_id [nd] mac = some nd.id := by
  simp only [find_existing_id]
  rw [h]
  dsimp only
  rw [if_pos hq]

/-- C5: promotion is idempotent: when the store already holds a
case-insensitive MAC match, `add_to_monitored_devices` returns its identifier
and leaves the store untouched; when it does not (for a MAC present in the
inventory), the first call adds exactly one record and a second identical call
returns the same identifier with the store unchanged. -/
theorem promote_idempotent (inv : Inventory) (store : ConfigStore) (mac site : String)
    (d : DiscoveredDevice) (hinv : inv mac = some d) :
    (∀ eid, find_existing_id store.devices mac = some eid →
        add_to_monitored_devices inv store mac site = (eid, store)) ∧
    (find_existing_id store.devices mac = none →
      (add_to_monitored_devices inv store mac site).2.devices.length
          = store.devices.length + 1 ∧
      add_to_monitored_devices inv (add_to_monitored_devices inv store mac site).2 mac site
          = ((add_to_monitored_devices inv store mac site).1,
             (add_to_monitored_devices inv store mac site).2)) := by
  constructor
  · intro eid he
    simp only [add_to_monitored_devices, hinv, he]
  · intro hnone
    have hfb : find_by_mac store.devices mac = none := find_by_mac_of_existing_none _ _ hnone
    have hdev : (store.add_device (new_monitored_record d mac site)).devices
        = store.devices ++ [{ new_monitored_record d mac site with id := some store.next_id }] :=
      rfl
    have hfb1 : find_by_mac (store.add_device (new_monitored_record d mac site)).devices mac
        = some (some store.next_id) := by
      rw [hdev, find_by_mac_append_none _ _ _ hfb,
        find_by_mac_singleton { new_monitored_record d mac site with id := some store.next_id }
          mac rfl]
    have hcall1 : add_to_monitored_devices inv store mac site
        = (some store.next_id, store.add_device (new_monitored_record d mac site)) := by
      simp only [add_to_monitored_devices, hinv, hnone, hfb1]
    have hex2 : find_existing_id
        (store.add_device (new_monitored_record d mac site)).devices mac
        = some (some store.next_id) := by
      rw [hdev, find_existing_id_append_none _ _ _ hnone,
        find_existing_id_singleton
          { new_monitored_record d mac site with id := some store.next_id } mac mac rfl rfl]
    constructor
    · rw [hcall1, hdev]
      simp
    · rw [hcall1]
      simp only [add_to_monitored_devices, hinv, hex2]

/-- C5 witness: promoting `dev0` out of `inv0` into an empty store twice
returns the same identifier both times and grows the store by exactly one
record. -/
theorem promote_idempotent_witness :
    (add_to_monitored_devices inv0 store0 "AA:BB:CC:00:11:22" "site1").2.devices.length
        = store0.devices.length + 1 ∧
    add_to_monitored_devices inv0
        (add_to_monitored_devices inv0 store0 "AA:BB:CC:00:11:22" "site1").2
        "AA:BB:CC:00:11:22" "site1"
      = ((add_to_monitored_devices inv0 store0 "AA:BB:CC:00:11:22" "site1").1,
         (add_to_monitored_devices inv0 store0 "AA:BB:CC:00:11:22" "site1").2) :=
  (promote_idempotent inv0 store0 "AA:BB:CC:00:11:22" "site1" dev0 (by decide)).2 rfl

/-- C10: the promotion membership test uses the caller's MAC string verbatim
as a dict key, while inventory keys are the source MAC uppercased with
separators retained; so a MAC that is absent as written — including any
differently-cased spelling of a stored MAC — yields `none` with the store
untouched, while the identical uppercase spelling promotes (the concrete
conjuncts exercise an inventory built from a lowercase ARP observation). -/
theorem promote_membership_verbatim (ven : VendorOracle) (now : Int) :
    (∀ (inv : Inventory) (store : ConfigStore) (mac site : String), inv mac = none →
        add_to_monitored_devices inv store mac site = (none, store)) ∧
    (∀ (s : DetectState) (e : ArpEntry), e.mac_address ≠ "" →
        (stepArp ven now s e).inv (MacVendor.pyUpper e.mac_address) ≠ none) ∧
    (detect_new_devices ven0 0 [arp0] [] emptyInv).1 "AA:BB:CC:00:11:22" ≠ none ∧
    (detect_new_devices ven0 0 [arp0] [] emptyInv).1 "aa:bb:cc:00:11:22" = none ∧
    add_to_monitored_devices (detect_new_devices ven0 0 [arp0] [] emptyInv).1 store0
        "aa:bb:cc:00:11:22" "site1" = (none, store0) ∧
    (add_to_monitored_devices (detect_new_devices ven0 0 [arp0] [] emptyInv).1 store0
        "AA:BB:CC:00:11:22" "site1").1 = some 0 := by
  have h1 : ∀ (inv : Inventory) (store : ConfigStore) (mac site : String), inv mac = none →
      add_to_monitored_devices inv store mac site = (none, store) := by
    intro inv store mac site h
    simp only [add_to_monitored_devices, h]
  refine ⟨h1, ?_, by decide, by decide, h1 _ store0 _ "site1" (by decide), by decide⟩
  intro s e he
  rw [stepArp_inv_lookup, if_neg he, if_pos rfl]
  cases hc : s.inv (MacVendor.pyUpper e.mac_address) with
  | none => exact fun hx => Option.noConfusion hx
  | some d2 => exact fun hx => Option.noConfusion hx

/-- C10 witness: promoting a MAC that is not a key of the inventory (here the
empty inventory) fails with `none` and leaves the store unchanged. -/
theorem promote_membership_verbatim_witness :
    add_to_monitored_devices emptyInv store0 "AA:BB:CC:00:11:22" "site1" = (none, store0) :=
  (promote_membership_verbatim ven0 0).1 emptyInv store0 "AA:BB:CC:00:11:22" "site1" rfl

end Realtime

namespace ActiveScan

/-- C8: no per-host probe outcome escapes `check_mikrotik_device` as an
exception, and a refused/unreachable/timed-out connection attempt, a raised
connect error, or an open port followed by a login/protocol failure each
yield `none` rather than an error or a candidate. -/
theorem probe_failures_yield_none (ip u p : String) (port : Nat) (gid : String)
    (h : HostBehavior) :
    (∀ msg, check_mikrotik_device ip u p port gid h ≠ Except.error msg) ∧
    (∀ msg, h.connect_ex = Except.error msg →
        check_mikrotik_device ip u p port gid h = Except.ok none) ∧
    (∀ code, h.connect_ex = Except.ok code → code ≠ 0 →
        check_mikrotik_device ip u p port gid h = Except.ok none) ∧
    (∀ msg, h.connect_ex = Except.ok 0 → h.get_api = Except.error msg →
        check_mikrotik_device ip u p port gid h = Except.ok none) := by
  refine ⟨?_, ?_, ?_, ?_⟩
  · intro msg
    unfold check_mikrotik_device
    cases hcb : check_body ip u p port gid h with
    | error e => exact fun hx => Except.noConfusion hx
    | ok v => exact fun hx => Except.noConfusion hx
  · intro msg hce
    unfold check_mikrotik_device check_body
    rw [hce]
  · intro code hce hne
    unfold check_mikrotik_device check_body
    rw [hce]
    dsimp only
    rw [if_pos hne]
  · intro msg hce hapi
    unfold check_mikrotik_device check_body
    rw [hce]
    dsimp only
    rw [if_neg (by decide : ¬ (0 : Int) ≠ 0), hapi]

/-- C8 witness: a host refusing the connection (code 111) yields no candidate
and no error. -/
theorem probe_failures_yield_none_witness :
    check_mikrotik_device "192.168.88.1" "admin" "" 8728 "id0" refusedHost = Except.ok none :=
  (probe_failures_yield_none "192.168.88.1" "admin" "" 8728 "id0" refusedHost).2.2.1
    111 rfl (by decide)

end ActiveScan
